import Mathlib

/-!
# imguiwrap: the `dear::` scope guards over Dear ImGui

Embedding of `src/imguiwrap.dear.h`.

The wrapped library is an external collaborator.  It is embedded as an
oracle: every call made on it is appended to a trace, and the boolean a call
returns is an arbitrary function of the calls made so far and of the call
itself.  Quantifying over the oracle quantifies over every behaviour of the
library.  Guard constructors, the guard destructor, `operator&&` and
`operator bool` are translated one by one from the header.
-/

namespace ImGui

/-- An argument value handed to the library.  Floats are carried as their
IEEE-754 bit pattern: the wrappers only forward them. -/
inductive Arg
  | str (s : String)
  | ptr (addr : Option Nat)
  | int (i : Int)
  | bool (b : Bool)
  | float (bits : Nat)
  | vec2 (x : Nat) (y : Nat)
  deriving DecidableEq

/-- The library entry points used by the header. -/
inductive Fn
  | Begin | End
  | BeginChild | EndChild
  | BeginChildFrame | EndChildFrame
  | BeginGroup | EndGroup
  | BeginCombo | EndCombo
  | BeginListBox | EndListBox
  | BeginMenuBar | EndMenuBar
  | BeginMainMenuBar | EndMainMenuBar
  | BeginMenu | EndMenu
  | BeginTable | EndTable
  | BeginTooltip | EndTooltip
  | CollapsingHeader
  | TreeNode | TreePop | Separator
  | BeginPopup | BeginPopupModal | EndPopup
  | BeginTabBar | EndTabBar
  | BeginTabItem | EndTabItem
  | PushStyleVar | PopStyleVar
  | IsItemHovered
  | TextUnformatted
  deriving DecidableEq

/-- One call on the library: the entry point and the arguments it received. -/
structure Call where
  fn : Fn
  args : List Arg
  deriving DecidableEq

/-- The calls made on the library so far, oldest first. -/
abbrev Trace := List Call

/-- A behaviour of the library: the boolean returned by a call, given the
calls made before it. -/
abbrev Lib := Trace → Call → Bool

end ImGui

open ImGui

/-- Code that talks to the library: it reads the library's answers and
extends the trace of calls. -/
def ImGuiM (α : Type) : Type := Lib → Trace → α × Trace

instance : Monad ImGuiM where
  pure a := fun _ tr => (a, tr)
  bind m f := fun lib tr => f (m lib tr).1 lib (m lib tr).2

namespace ImGui

/-- Perform one library call and obtain its boolean result. -/
def invoke (c : Call) : ImGuiM Bool := fun lib tr => (lib tr c, tr ++ [c])

/-- Perform one library call whose C++ return type is `void`. -/
def invokeVoid (c : Call) : ImGuiM Unit := fun _ tr => ((), tr ++ [c])

/-- Two-float vector `ImVec2`. -/
structure ImVec2 where
  x : Nat
  y : Nat
  deriving DecidableEq

/-- How an `ImVec2` is handed over. -/
def ImVec2.arg (v : ImVec2) : Arg := Arg.vec2 v.x v.y

def Begin (title : String) (p_open : Option Nat) (flags : Int) : ImGuiM Bool :=
  invoke ⟨Fn.Begin, [.str title, .ptr p_open, .int flags]⟩
def End : ImGuiM Unit := invokeVoid ⟨Fn.End, []⟩
def BeginChild (args : List Arg) : ImGuiM Bool := invoke ⟨Fn.BeginChild, args⟩
def EndChild : ImGuiM Unit := invokeVoid ⟨Fn.EndChild, []⟩
def BeginChildFrame (args : List Arg) : ImGuiM Bool := invoke ⟨Fn.BeginChildFrame, args⟩
def EndChildFrame : ImGuiM Unit := invokeVoid ⟨Fn.EndChildFrame, []⟩
def BeginGroup : ImGuiM Unit := invokeVoid ⟨Fn.BeginGroup, []⟩
def EndGroup : ImGuiM Unit := invokeVoid ⟨Fn.EndGroup, []⟩
def BeginCombo (label preview : String) (flags : Int) : ImGuiM Bool :=
  invoke ⟨Fn.BeginCombo, [.str label, .str preview, .int flags]⟩
def EndCombo : ImGuiM Unit := invokeVoid ⟨Fn.EndCombo, []⟩
def BeginListBox (label : String) (size : ImVec2) : ImGuiM Bool :=
  invoke ⟨Fn.BeginListBox, [.str label, size.arg]⟩
def EndListBox : ImGuiM Unit := invokeVoid ⟨Fn.EndListBox, []⟩
def BeginMenuBar : ImGuiM Bool := invoke ⟨Fn.BeginMenuBar, []⟩
def EndMenuBar : ImGuiM Unit := invokeVoid ⟨Fn.EndMenuBar, []⟩
def BeginMainMenuBar : ImGuiM Bool := invoke ⟨Fn.BeginMainMenuBar, []⟩
def EndMainMenuBar : ImGuiM Unit := invokeVoid ⟨Fn.EndMainMenuBar, []⟩
def BeginMenu (label : String) (enabled : Bool) : ImGuiM Bool :=
  invoke ⟨Fn.BeginMenu, [.str label, .bool enabled]⟩
def EndMenu : ImGuiM Unit := invokeVoid ⟨Fn.EndMenu, []⟩
def BeginTable (str_id : String) (column : Int) (flags : Int) (outer_size : ImVec2)
    (inner_width : Nat) : ImGuiM Bool :=
  invoke ⟨Fn.BeginTable, [.str str_id, .int column, .int flags, outer_size.arg, .float inner_width]⟩
def EndTable : ImGuiM Unit := invokeVoid ⟨Fn.EndTable, []⟩
def BeginTooltip : ImGuiM Unit := invokeVoid ⟨Fn.BeginTooltip, []⟩
def EndTooltip : ImGuiM Unit := invokeVoid ⟨Fn.EndTooltip, []⟩
def CollapsingHeader (label : String) (flags : Int) : ImGuiM Bool :=
  invoke ⟨Fn.CollapsingHeader, [.str label, .int flags]⟩
def TreeNode (args : List Arg) : ImGuiM Bool := invoke ⟨Fn.TreeNode, args⟩
def TreePop : ImGuiM Unit := invokeVoid ⟨Fn.TreePop, []⟩
def Separator : ImGuiM Unit := invokeVoid ⟨Fn.Separator, []⟩
def BeginPopup (str_id : String) (flags : Int) : ImGuiM Bool :=
  invoke ⟨Fn.BeginPopup, [.str str_id, .int flags]⟩
def BeginPopupModal (name : String) (p_open : Option Nat) (flags : Int) : ImGuiM Bool :=
  invoke ⟨Fn.BeginPopupModal, [.str name, .ptr p_open, .int flags]⟩
def EndPopup : ImGuiM Unit := invokeVoid ⟨Fn.EndPopup, []⟩
def BeginTabBar (name : String) (flags : Int) : ImGuiM Bool :=
  invoke ⟨Fn.BeginTabBar, [.str name, .int flags]⟩
def EndTabBar : ImGuiM Unit := invokeVoid ⟨Fn.EndTabBar, []⟩
def BeginTabItem (name : String) (p_open : Option Nat) (flags : Int) : ImGuiM Bool :=
  invoke ⟨Fn.BeginTabItem, [.str name, .ptr p_open, .int flags]⟩
def EndTabItem : ImGuiM Unit := invokeVoid ⟨Fn.EndTabItem, []⟩
def PushStyleVar (idx : Int) (val : Arg) : ImGuiM Unit :=
  invokeVoid ⟨Fn.PushStyleVar, [.int idx, val]⟩
def PopStyleVar : ImGuiM Unit := invokeVoid ⟨Fn.PopStyleVar, []⟩
def IsItemHovered (flags : Int) : ImGuiM Bool := invoke ⟨Fn.IsItemHovered, [.int flags]⟩

end ImGui

namespace dear

/-- The constant `dear::Zero`, `ImVec2(0.0f, 0.0f)`. -/
def Zero : ImVec2 := ⟨0, 0⟩

/-- The structs that instantiate `ScopeWrapper` as its `Base` parameter. -/
inductive Base
  | Begin | Child | ChildFrame | Group | Combo | ListBox | MenuBar | MainMenuBar
  | Menu | Table | Tooltip | CollapsingHeader | TreeNode | SeparatedTreeNode
  | Popup | PopupModal | TabBar | TabItem | WithStyleVar | ItemTooltip
  deriving DecidableEq

/-- The static member `Base::dtor()` of each struct. -/
def Base.dtor : Base → ImGuiM Unit
  | .Begin => ImGui.End
  | .Child => ImGui.EndChild
  | .ChildFrame => ImGui.EndChildFrame
  | .Group => ImGui.EndGroup
  | .Combo => ImGui.EndCombo
  | .ListBox => ImGui.EndListBox
  | .MenuBar => ImGui.EndMenuBar
  | .MainMenuBar => ImGui.EndMainMenuBar
  | .Menu => ImGui.EndMenu
  | .Table => ImGui.EndTable
  | .Tooltip => ImGui.EndTooltip
  | .CollapsingHeader => pure ()
  | .TreeNode => ImGui.TreePop
  | .SeparatedTreeNode => do
      ImGui.TreePop
      ImGui.Separator
  | .Popup => ImGui.EndPopup
  | .PopupModal => ImGui.EndPopup
  | .TabBar => ImGui.EndTabBar
  | .TabItem => ImGui.EndTabItem
  | .WithStyleVar => ImGui.PopStyleVar
  | .ItemTooltip => ImGui.EndTooltip

/-- The class template `ScopeWrapper<Base, ForceDtor>`: its only data member is
the `const bool ok_`. -/
structure ScopeWrapper (B : Base) (ForceDtor : Bool) where
  ok_ : Bool
  deriving DecidableEq

namespace ScopeWrapper

variable {B : Base} {ForceDtor : Bool}

/-- The static member `force_dtor`. -/
def force_dtor (_self : ScopeWrapper B ForceDtor) : Bool := ForceDtor

/-- The constructor `ScopeWrapper(bool ok)`. -/
def ctor (ok : Bool) : ScopeWrapper B ForceDtor := ⟨ok⟩

/-- The destructor `~ScopeWrapper()`. -/
def destructor (self : ScopeWrapper B ForceDtor) : ImGuiM Unit :=
  if !self.force_dtor then
    if !self.ok_ then
      pure ()
    else
      B.dtor
  else
    B.dtor

/-- The member `operator&&(PassthruFn passthru)`; the callable's own result
is discarded. -/
def and {α : Type} (self : ScopeWrapper B ForceDtor) (passthru : ImGuiM α) : ImGuiM Bool := do
  if self.ok_ then
    let _ ← passthru
  pure self.ok_

/-- The member `operator bool()`. -/
def toBool (self : ScopeWrapper B ForceDtor) : Bool := self.ok_

end ScopeWrapper

/-- The constructor `Begin(title, open, flags)`. -/
def Begin (title : String) (p_open : Option Nat) (flags : Int) :
    ImGuiM (ScopeWrapper .Begin true) := do
  let ok ← ImGui.Begin title p_open flags
  pure (ScopeWrapper.ctor ok)

/-- The constructor `Child(const char* title, size, border, flags)`. -/
def Child (title : String) (size : ImVec2) (border : Bool) (flags : Int) :
    ImGuiM (ScopeWrapper .Child true) := do
  let ok ← ImGui.BeginChild [.str title, size.arg, .bool border, .int flags]
  pure (ScopeWrapper.ctor ok)

/-- The constructor `Child(ImGuiID id, size, border, flags)`. -/
def Child.byId (id : Nat) (size : ImVec2) (border : Bool) (flags : Int) :
    ImGuiM (ScopeWrapper .Child true) := do
  let ok ← ImGui.BeginChild [.int id, size.arg, .bool border, .int flags]
  pure (ScopeWrapper.ctor ok)

/-- The constructor `ChildFrame(Args&&... args)`. -/
def ChildFrame (args : List Arg) : ImGuiM (ScopeWrapper .ChildFrame true) := do
  let ok ← ImGui.BeginChildFrame args
  pure (ScopeWrapper.ctor ok)

/-- The constructor `Group()`. -/
def Group : ImGuiM (ScopeWrapper .Group true) := do
  let self : ScopeWrapper .Group true := ScopeWrapper.ctor true
  ImGui.BeginGroup
  pure self

/-- The constructor `Combo(label, preview, flags)`. -/
def Combo (label preview : String) (flags : Int) : ImGuiM (ScopeWrapper .Combo false) := do
  let ok ← ImGui.BeginCombo label preview flags
  pure (ScopeWrapper.ctor ok)

/-- The constructor `ListBox(label, size)`. -/
def ListBox (label : String) (size : ImVec2) : ImGuiM (ScopeWrapper .ListBox false) := do
  let ok ← ImGui.BeginListBox label size
  pure (ScopeWrapper.ctor ok)

/-- The constructor `MenuBar()`. -/
def MenuBar : ImGuiM (ScopeWrapper .MenuBar false) := do
  let ok ← ImGui.BeginMenuBar
  pure (ScopeWrapper.ctor ok)

/-- The constructor `MainMenuBar()`. -/
def MainMenuBar : ImGuiM (ScopeWrapper .MainMenuBar false) := do
  let ok ← ImGui.BeginMainMenuBar
  pure (ScopeWrapper.ctor ok)

/-- The constructor `Menu(label, enabled)`. -/
def Menu (label : String) (enabled : Bool) : ImGuiM (ScopeWrapper .Menu false) := do
  let ok ← ImGui.BeginMenu label enabled
  pure (ScopeWrapper.ctor ok)

/-- The constructor `Table(str_id, column, flags, outer_size, inner_width)`. -/
def Table (str_id : String) (column : Int) (flags : Int) (outer_size : ImVec2)
    (inner_width : Nat) : ImGuiM (ScopeWrapper .Table false) := do
  let ok ← ImGui.BeginTable str_id column flags outer_size inner_width
  pure (ScopeWrapper.ctor ok)

/-- The constructor `Tooltip()`. -/
def Tooltip : ImGuiM (ScopeWrapper .Tooltip false) := do
  let self : ScopeWrapper .Tooltip false := ScopeWrapper.ctor true
  ImGui.BeginTooltip
  pure self

/-- The constructor `CollapsingHeader(label, flags)`. -/
def CollapsingHeader (label : String) (flags : Int) :
    ImGuiM (ScopeWrapper .CollapsingHeader false) := do
  let ok ← ImGui.CollapsingHeader label flags
  pure (ScopeWrapper.ctor ok)

/-- The constructor `TreeNode(Args&&... args)`. -/
def TreeNode (args : List Arg) : ImGuiM (ScopeWrapper .TreeNode false) := do
  let ok ← ImGui.TreeNode args
  pure (ScopeWrapper.ctor ok)

/-- The constructor `SeparatedTreeNode(Args&&... args)`. -/
def SeparatedTreeNode (args : List Arg) : ImGuiM (ScopeWrapper .SeparatedTreeNode false) := do
  let ok ← ImGui.TreeNode args
  pure (ScopeWrapper.ctor ok)

/-- The constructor `Popup(str_id, flags)`, the non-modal popup. -/
def Popup (str_id : String) (flags : Int) : ImGuiM (ScopeWrapper .Popup false) := do
  let ok ← ImGui.BeginPopup str_id flags
  pure (ScopeWrapper.ctor ok)

/-- The tag-dispatched constructor `Popup(modal, name, p_open, flags)`. -/
def Popup.modal (name : String) (p_open : Option Nat) (flags : Int) :
    ImGuiM (ScopeWrapper .Popup false) := do
  let ok ← ImGui.BeginPopupModal name p_open flags
  pure (ScopeWrapper.ctor ok)

/-- The static factory `Popup::Modal(name, p_open, flags)`.  Its body is
`return Popup(modal{}, name, p_open, flags);`: the returned prvalue initialises
the caller's object directly (the copy constructor is deleted, so no temporary
exists that could be destroyed on the way). -/
def Popup.Modal (name : String) (p_open : Option Nat) (flags : Int) :
    ImGuiM (ScopeWrapper .Popup false) :=
  Popup.modal name p_open flags

/-- The constructor `PopupModal(name, p_open, flags)`. -/
def PopupModal (name : String) (p_open : Option Nat) (flags : Int) :
    ImGuiM (ScopeWrapper .PopupModal false) := do
  let ok ← ImGui.BeginPopupModal name p_open flags
  pure (ScopeWrapper.ctor ok)

/-- The constructor `TabBar(name, flags)`. -/
def TabBar (name : String) (flags : Int) : ImGuiM (ScopeWrapper .TabBar false) := do
  let ok ← ImGui.BeginTabBar name flags
  pure (ScopeWrapper.ctor ok)

/-- The constructor `TabItem(name, open, flags)`. -/
def TabItem (name : String) (p_open : Option Nat) (flags : Int) :
    ImGuiM (ScopeWrapper .TabItem false) := do
  let ok ← ImGui.BeginTabItem name p_open flags
  pure (ScopeWrapper.ctor ok)

/-- The constructor `WithStyleVar(idx, const ImVec2& val)`. -/
def WithStyleVar (idx : Int) (val : ImVec2) : ImGuiM (ScopeWrapper .WithStyleVar false) := do
  let self : ScopeWrapper .WithStyleVar false := ScopeWrapper.ctor true
  ImGui.PushStyleVar idx val.arg
  pure self

/-- The constructor `WithStyleVar(idx, float val)`. -/
def WithStyleVar.byFloat (idx : Int) (val : Nat) :
    ImGuiM (ScopeWrapper .WithStyleVar false) := do
  let self : ScopeWrapper .WithStyleVar false := ScopeWrapper.ctor true
  ImGui.PushStyleVar idx (.float val)
  pure self

/-- The constructor `ItemTooltip(flags)`. -/
def ItemTooltip (flags : Int) : ImGuiM (ScopeWrapper .ItemTooltip false) := do
  let self : ScopeWrapper .ItemTooltip false := ScopeWrapper.ctor (← ImGui.IsItemHovered flags)
  if self.ok_ then
    ImGui.BeginTooltip
  pure self

/-- A guard declared at the start of a block: `{ X g(args...); body }`.  The
guard is constructed, the rest of the block runs with it in scope, and the
guard is destroyed when control leaves the block. -/
def inScope {B : Base} {F : Bool} {α : Type} (construct : ImGuiM (ScopeWrapper B F))
    (body : ScopeWrapper B F → ImGuiM α) : ImGuiM α := do
  let g ← construct
  let r ← body g
  g.destructor
  pure r

/-- The operations a call site can apply to a live guard: `operator bool` and
`operator&&` with some callable. -/
inductive GuardOp
  | toBool
  | and (passthru : ImGuiM Unit)

/-- Apply one operation to a guard.  Both members are `const`: the object
after the operation is the object before it.  The result is the boolean the
operation returned, together with the guard as it is afterwards. -/
def GuardOp.apply {B : Base} {F : Bool} (g : ScopeWrapper B F) :
    GuardOp → ImGuiM (Bool × ScopeWrapper B F)
  | .toBool => pure (g.toBool, g)
  | .and passthru => do
      let r ← g.and passthru
      pure (r, g)

/-- Apply a sequence of operations to a guard, collecting the booleans
returned, and yield the guard as it is after the last one. -/
def applyOps {B : Base} {F : Bool} (g : ScopeWrapper B F) :
    List GuardOp → ImGuiM (List Bool × ScopeWrapper B F)
  | [] => pure ([], g)
  | op :: ops => do
      let r ← op.apply g
      let rs ← applyOps r.2 ops
      pure (r.1 :: rs.1, rs.2)

/-- A live guard object of any of the guard types. -/
structure Guard where
  base : Base
  force : Bool
  obj : ScopeWrapper base force

/-- Forget the static type of a freshly constructed guard. -/
def Guard.of {B : Base} {F : Bool} (construct : ImGuiM (ScopeWrapper B F)) : ImGuiM Guard := do
  let g ← construct
  pure ⟨B, F, g⟩

/-- The library calls made by the destructor of a guard. -/
def Guard.endCalls (g : Guard) : List Call := (g.obj.destructor (fun _ _ => false) []).2

/-- A guard definition as written at a call site: the guard type, the
constructor chosen and its arguments. -/
inductive Decl
  | Begin (title : String) (p_open : Option Nat) (flags : Int)
  | Child (title : String) (size : ImVec2) (border : Bool) (flags : Int)
  | ChildById (id : Nat) (size : ImVec2) (border : Bool) (flags : Int)
  | ChildFrame (args : List Arg)
  | Group
  | Combo (label preview : String) (flags : Int)
  | ListBox (label : String) (size : ImVec2)
  | MenuBar
  | MainMenuBar
  | Menu (label : String) (enabled : Bool)
  | Table (str_id : String) (column : Int) (flags : Int) (outer_size : ImVec2) (inner_width : Nat)
  | Tooltip
  | CollapsingHeader (label : String) (flags : Int)
  | TreeNode (args : List Arg)
  | SeparatedTreeNode (args : List Arg)
  | Popup (str_id : String) (flags : Int)
  | PopupTagModal (name : String) (p_open : Option Nat) (flags : Int)
  | PopupFactoryModal (name : String) (p_open : Option Nat) (flags : Int)
  | PopupModal (name : String) (p_open : Option Nat) (flags : Int)
  | TabBar (name : String) (flags : Int)
  | TabItem (name : String) (p_open : Option Nat) (flags : Int)
  | WithStyleVar (idx : Int) (val : ImVec2)
  | WithStyleVarFloat (idx : Int) (val : Nat)
  | ItemTooltip (flags : Int)
  deriving DecidableEq

/-- Run the constructor a definition names. -/
def Decl.construct : Decl → ImGuiM Guard
  | .Begin title p_open flags => Guard.of (dear.Begin title p_open flags)
  | .Child title size border flags => Guard.of (dear.Child title size border flags)
  | .ChildById id size border flags => Guard.of (dear.Child.byId id size border flags)
  | .ChildFrame args => Guard.of (dear.ChildFrame args)
  | .Group => Guard.of dear.Group
  | .Combo label preview flags => Guard.of (dear.Combo label preview flags)
  | .ListBox label size => Guard.of (dear.ListBox label size)
  | .MenuBar => Guard.of dear.MenuBar
  | .MainMenuBar => Guard.of dear.MainMenuBar
  | .Menu label enabled => Guard.of (dear.Menu label enabled)
  | .Table str_id column flags outer_size inner_width =>
      Guard.of (dear.Table str_id column flags outer_size inner_width)
  | .Tooltip => Guard.of dear.Tooltip
  | .CollapsingHeader label flags => Guard.of (dear.CollapsingHeader label flags)
  | .TreeNode args => Guard.of (dear.TreeNode args)
  | .SeparatedTreeNode args => Guard.of (dear.SeparatedTreeNode args)
  | .Popup str_id flags => Guard.of (dear.Popup str_id flags)
  | .PopupTagModal name p_open flags => Guard.of (dear.Popup.modal name p_open flags)
  | .PopupFactoryModal name p_open flags => Guard.of (dear.Popup.Modal name p_open flags)
  | .PopupModal name p_open flags => Guard.of (dear.PopupModal name p_open flags)
  | .TabBar name flags => Guard.of (dear.TabBar name flags)
  | .TabItem name p_open flags => Guard.of (dear.TabItem name p_open flags)
  | .WithStyleVar idx val => Guard.of (dear.WithStyleVar idx val)
  | .WithStyleVarFloat idx val => Guard.of (dear.WithStyleVar.byFloat idx val)
  | .ItemTooltip flags => Guard.of (dear.ItemTooltip flags)

/-- How control leaves a statement: by falling off its end, or by `return`. -/
inductive Flow
  | normal
  | returned
  deriving DecidableEq

/-- The shape of a function body that uses guards.
* `call c`: a plain library call whose result is not used;
* `ret`: `return;`
* `seq s t`: `s` followed by `t`;
* `decl d rest`: `X g(args...);` followed by `rest`, the remainder of the
  enclosing block, which is the lifetime of `g`;
* `ifOpen d body`: `if (X g{args...}) { body }`, the lifetime of `g` being the
  whole `if` statement. -/
inductive Stmt
  | skip
  | call (c : Call)
  | ret
  | seq (s t : Stmt)
  | decl (d : Decl) (rest : Stmt)
  | ifOpen (d : Decl) (body : Stmt)

/-- Execution of a function body.  An object with automatic storage duration
is destroyed when control leaves its block, on the normal path and on
`return` alike; a `return` skips the statements that follow it. -/
def Stmt.exec : Stmt → ImGuiM Flow
  | .skip => pure Flow.normal
  | .call c => do
      let _ ← ImGui.invoke c
      pure Flow.normal
  | .ret => pure Flow.returned
  | .seq s t => do
      let f ← s.exec
      if f = Flow.returned then
        pure Flow.returned
      else
        t.exec
  | .decl d rest => do
      let g ← d.construct
      let f ← rest.exec
      g.obj.destructor
      pure f
  | .ifOpen d body => do
      let g ← d.construct
      let f ← if g.obj.toBool then body.exec else pure Flow.normal
      g.obj.destructor
      pure f

/-- One level of a chain of nested guards: the guard defined at the start of
the block, and the plain library calls that stand in that block after the
nested block. -/
structure Level where
  d : Decl
  after : List Call
  deriving DecidableEq

/-- A run of plain library calls, as statements. -/
def calls : List Call → Stmt
  | [] => Stmt.skip
  | c :: cs => Stmt.seq (Stmt.call c) (calls cs)

/-- The function body `X1 g1(..); { X2 g2(..); { .. inner .. } after2 } after1`:
each level defines its guard, then holds the deeper levels as a nested block,
then makes its trailing calls.  `inner` is the innermost statement. -/
def nestLevels : List Level → Stmt → Stmt
  | [], inner => inner
  | l :: ls, inner => Stmt.decl l.d (Stmt.seq (nestLevels ls inner) (calls l.after))

/-! ### The required behaviour, stated independently of the header

The definitions of this section do not use the constructors, the destructor
or `Stmt.exec`.  They write down, per guard definition, the library calls the
catalogue of variants prescribes, and the stack discipline prescribed for
closing regions: a region is closed by popping the innermost open one, and
an early `return` pops them all, innermost first. -/

namespace Spec

/-- The library call whose boolean result is the guard's predicate; `none`
for a variant without failure predicate.  The two menu bars take the result
of their begin call, as the header has them. -/
def predicate : Decl → Option Call
  | .Begin title p_open flags => some ⟨Fn.Begin, [.str title, .ptr p_open, .int flags]⟩
  | .Child title size border flags =>
      some ⟨Fn.BeginChild, [.str title, .vec2 size.x size.y, .bool border, .int flags]⟩
  | .ChildById id size border flags =>
      some ⟨Fn.BeginChild, [.int id, .vec2 size.x size.y, .bool border, .int flags]⟩
  | .ChildFrame args => some ⟨Fn.BeginChildFrame, args⟩
  | .Group => none
  | .Combo label preview flags => some ⟨Fn.BeginCombo, [.str label, .str preview, .int flags]⟩
  | .ListBox label size => some ⟨Fn.BeginListBox, [.str label, .vec2 size.x size.y]⟩
  | .MenuBar => some ⟨Fn.BeginMenuBar, []⟩
  | .MainMenuBar => some ⟨Fn.BeginMainMenuBar, []⟩
  | .Menu label enabled => some ⟨Fn.BeginMenu, [.str label, .bool enabled]⟩
  | .Table str_id column flags outer_size inner_width =>
      some ⟨Fn.BeginTable, [.str str_id, .int column, .int flags,
        .vec2 outer_size.x outer_size.y, .float inner_width]⟩
  | .Tooltip => none
  | .CollapsingHeader label flags => some ⟨Fn.CollapsingHeader, [.str label, .int flags]⟩
  | .TreeNode args => some ⟨Fn.TreeNode, args⟩
  | .SeparatedTreeNode args => some ⟨Fn.TreeNode, args⟩
  | .Popup str_id flags => some ⟨Fn.BeginPopup, [.str str_id, .int flags]⟩
  | .PopupTagModal name p_open flags =>
      some ⟨Fn.BeginPopupModal, [.str name, .ptr p_open, .int flags]⟩
  | .PopupFactoryModal name p_open flags =>
      some ⟨Fn.BeginPopupModal, [.str name, .ptr p_open, .int flags]⟩
  | .PopupModal name p_open flags =>
      some ⟨Fn.BeginPopupModal, [.str name, .ptr p_open, .int flags]⟩
  | .TabBar name flags => some ⟨Fn.BeginTabBar, [.str name, .int flags]⟩
  | .TabItem name p_open flags => some ⟨Fn.BeginTabItem, [.str name, .ptr p_open, .int flags]⟩
  | .WithStyleVar _ _ => none
  | .WithStyleVarFloat _ _ => none
  | .ItemTooltip flags => some ⟨Fn.IsItemHovered, [.int flags]⟩

/-- Whether the guard is active: the library's answer to the predicate call,
made on the trace as it stands at construction; `true` without predicate. -/
def active (d : Decl) (lib : Lib) (tr : Trace) : Bool :=
  match predicate d with
  | some c => lib tr c
  | none => true

/-- The library calls a construction makes, in order, given whether the guard
comes out active. -/
def beginCalls : Decl → Bool → List Call
  | .Group, _ => [⟨Fn.BeginGroup, []⟩]
  | .Tooltip, _ => [⟨Fn.BeginTooltip, []⟩]
  | .WithStyleVar idx val, _ => [⟨Fn.PushStyleVar, [.int idx, .vec2 val.x val.y]⟩]
  | .WithStyleVarFloat idx val, _ => [⟨Fn.PushStyleVar, [.int idx, .float val]⟩]
  | .ItemTooltip flags, true => [⟨Fn.IsItemHovered, [.int flags]⟩, ⟨Fn.BeginTooltip, []⟩]
  | .ItemTooltip flags, false => [⟨Fn.IsItemHovered, [.int flags]⟩]
  | d, _ => (predicate d).toList

/-- Whether the variant is force-close: window, child, child frame, group. -/
def forceClose : Decl → Bool
  | .Begin _ _ _ => true
  | .Child _ _ _ _ => true
  | .ChildById _ _ _ _ => true
  | .ChildFrame _ => true
  | .Group => true
  | _ => false

/-- The close action of the variant, as the library calls it makes. -/
def endAction : Decl → List Call
  | .Begin _ _ _ => [⟨Fn.End, []⟩]
  | .Child _ _ _ _ => [⟨Fn.EndChild, []⟩]
  | .ChildById _ _ _ _ => [⟨Fn.EndChild, []⟩]
  | .ChildFrame _ => [⟨Fn.EndChildFrame, []⟩]
  | .Group => [⟨Fn.EndGroup, []⟩]
  | .Combo _ _ _ => [⟨Fn.EndCombo, []⟩]
  | .ListBox _ _ => [⟨Fn.EndListBox, []⟩]
  | .MenuBar => [⟨Fn.EndMenuBar, []⟩]
  | .MainMenuBar => [⟨Fn.EndMainMenuBar, []⟩]
  | .Menu _ _ => [⟨Fn.EndMenu, []⟩]
  | .Table _ _ _ _ _ => [⟨Fn.EndTable, []⟩]
  | .Tooltip => [⟨Fn.EndTooltip, []⟩]
  | .CollapsingHeader _ _ => []
  | .TreeNode _ => [⟨Fn.TreePop, []⟩]
  | .SeparatedTreeNode _ => [⟨Fn.TreePop, []⟩, ⟨Fn.Separator, []⟩]
  | .Popup _ _ => [⟨Fn.EndPopup, []⟩]
  | .PopupTagModal _ _ _ => [⟨Fn.EndPopup, []⟩]
  | .PopupFactoryModal _ _ _ => [⟨Fn.EndPopup, []⟩]
  | .PopupModal _ _ _ => [⟨Fn.EndPopup, []⟩]
  | .TabBar _ _ => [⟨Fn.EndTabBar, []⟩]
  | .TabItem _ _ _ => [⟨Fn.EndTabItem, []⟩]
  | .WithStyleVar _ _ => [⟨Fn.PopStyleVar, []⟩]
  | .WithStyleVarFloat _ _ => [⟨Fn.PopStyleVar, []⟩]
  | .ItemTooltip _ => [⟨Fn.EndTooltip, []⟩]

/-- The end calls owed by a constructed guard: its close action when the
variant is force-close or the guard is active, nothing otherwise. -/
def endCalls (d : Decl) (isActive : Bool) : List Call :=
  if forceClose d || isActive then endAction d else []

/-- Close every open region, innermost first.  The stack holds the end calls
owed by each constructed guard, the innermost on top. -/
def unwind : List (List Call) → List Call
  | [] => []
  | top :: below => top ++ unwind below

/-- Close the innermost open region: pop the top of the stack and make its
end calls. -/
def closeTop (tr : Trace) : List (List Call) → Trace × List (List Call)
  | [] => (tr, [])
  | top :: below => (tr ++ top, below)

/-- The required run of a function body, on an explicit stack of open
regions.  Constructing a guard makes its begin calls and pushes the end calls
it owes; leaving its block on the normal path pops the top of the stack; a
`return` unwinds the whole stack, innermost first, and ends the run, so that
no later statement runs.  Yields how control left, the trace, and the stack
left behind. -/
def run : Stmt → Lib → Trace → List (List Call) → Flow × Trace × List (List Call)
  | .skip, _, tr, live => (Flow.normal, tr, live)
  | .call c, _, tr, live => (Flow.normal, tr ++ [c], live)
  | .ret, _, tr, live => (Flow.returned, tr ++ unwind live, [])
  | .seq s t, lib, tr, live =>
      if (run s lib tr live).1 = Flow.returned then
        run s lib tr live
      else
        run t lib (run s lib tr live).2.1 (run s lib tr live).2.2
  | .decl d rest, lib, tr, live =>
      if (run rest lib (tr ++ beginCalls d (active d lib tr))
            (endCalls d (active d lib tr) :: live)).1 = Flow.returned then
        run rest lib (tr ++ beginCalls d (active d lib tr)) (endCalls d (active d lib tr) :: live)
      else
        (Flow.normal,
          closeTop
            (run rest lib (tr ++ beginCalls d (active d lib tr))
              (endCalls d (active d lib tr) :: live)).2.1
            (run rest lib (tr ++ beginCalls d (active d lib tr))
              (endCalls d (active d lib tr) :: live)).2.2)
  | .ifOpen d body, lib, tr, live =>
      if active d lib tr then
        if (run body lib (tr ++ beginCalls d true) (endCalls d true :: live)).1
            = Flow.returned then
          run body lib (tr ++ beginCalls d true) (endCalls d true :: live)
        else
          (Flow.normal,
            closeTop (run body lib (tr ++ beginCalls d true) (endCalls d true :: live)).2.1
              (run body lib (tr ++ beginCalls d true) (endCalls d true :: live)).2.2)
      else
        (Flow.normal, closeTop (tr ++ beginCalls d false) (endCalls d false :: live))

/-- The opening phase of a chain of nested guards: the trace once every level
has constructed its guard, and the end calls owed by each guard, listed in
construction order. -/
def openAll : List Level → Lib → Trace → Trace × List (List Call)
  | [], _, tr => (tr, [])
  | l :: ls, lib, tr =>
      ((openAll ls lib (tr ++ beginCalls l.d (active l.d lib tr))).1,
        endCalls l.d (active l.d lib tr)
          :: (openAll ls lib (tr ++ beginCalls l.d (active l.d lib tr))).2)

/-- What one level contributes when its block is left on the normal path: its
trailing calls, then the end calls its guard owes. -/
def leave (p : Level × List Call) : List Call := p.1.after ++ p.2

end Spec

end dear

namespace dear

/-! ## Basic facts about the embedding -/

theorem bind_apply {α β : Type} (m : ImGuiM α) (f : α → ImGuiM β) (lib : Lib) (tr : Trace) :
    (m >>= f) lib tr = f (m lib tr).1 lib (m lib tr).2 := rfl

theorem pure_apply {α : Type} (a : α) (lib : Lib) (tr : Trace) :
    (pure a : ImGuiM α) lib tr = (a, tr) := rfl

theorem invoke_apply (c : Call) (lib : Lib) (tr : Trace) :
    ImGui.invoke c lib tr = (lib tr c, tr ++ [c]) := rfl

theorem invokeVoid_apply (c : Call) (lib : Lib) (tr : Trace) :
    ImGui.invokeVoid c lib tr = ((), tr ++ [c]) := rfl

/-- The destructor only appends calls, and which ones does not depend on the
library or on the calls made before. -/
theorem destructor_apply {B : Base} {F : Bool} (g : ScopeWrapper B F) (lib : Lib) (tr : Trace) :
    g.destructor lib tr = ((), tr ++ Guard.endCalls ⟨B, F, g⟩) := by
  obtain ⟨ok⟩ := g
  cases B <;> cases F <;> cases ok <;>
    simp [Guard.endCalls, ScopeWrapper.destructor, ScopeWrapper.force_dtor, Base.dtor,
      bind_apply, pure_apply, invokeVoid_apply, ImGui.End, ImGui.EndChild, ImGui.EndChildFrame,
      ImGui.EndGroup, ImGui.EndCombo, ImGui.EndListBox, ImGui.EndMenuBar, ImGui.EndMainMenuBar,
      ImGui.EndMenu, ImGui.EndTable, ImGui.EndTooltip, ImGui.TreePop, ImGui.Separator,
      ImGui.EndPopup, ImGui.EndTabBar, ImGui.EndTabItem, ImGui.PopStyleVar]

/-- The trace left by a guarded scope: the body runs on the trace left by
the constructor, and the destructor appends its calls after the body. -/
theorem inScope_apply {B : Base} {F : Bool} {α : Type} (construct : ImGuiM (ScopeWrapper B F))
    (body : ScopeWrapper B F → ImGuiM α) (lib : Lib) (tr : Trace) :
    inScope construct body lib tr =
      ((body (construct lib tr).1 lib (construct lib tr).2).1,
       (body (construct lib tr).1 lib (construct lib tr).2).2
         ++ Guard.endCalls ⟨B, F, (construct lib tr).1⟩) := by
  simp [inScope, bind_apply, pure_apply, destructor_apply]

/-- The calls the destructor makes: those of `Base::dtor()` when the guard is
force-closing or active, none otherwise. -/
theorem endCalls_eq {B : Base} {F : Bool} (g : ScopeWrapper B F) :
    Guard.endCalls ⟨B, F, g⟩ = if F || g.ok_ then (B.dtor (fun _ _ => false) []).2 else [] := by
  obtain ⟨ok⟩ := g
  cases F <;> cases ok <;> rfl

theorem guard_of_apply {B : Base} {F : Bool} (construct : ImGuiM (ScopeWrapper B F)) (lib : Lib)
    (tr : Trace) :
    Guard.of construct lib tr = (⟨B, F, (construct lib tr).1⟩, (construct lib tr).2) := rfl

/-- Each constructor of the header makes the begin calls required of its
guard definition and records the required flag, and the destructor of the
guard it builds makes the end calls required. -/
theorem construct_meets_spec (d : Decl) (lib : Lib) (tr : Trace) :
    (d.construct lib tr).2 = tr ++ Spec.beginCalls d (Spec.active d lib tr) ∧
    (d.construct lib tr).1.obj.toBool = Spec.active d lib tr ∧
    (d.construct lib tr).1.endCalls = Spec.endCalls d (Spec.active d lib tr) := by
  cases d with
  | ItemTooltip flags =>
    cases h : lib tr ⟨Fn.IsItemHovered, [.int flags]⟩ <;>
      simp [Decl.construct, guard_of_apply, endCalls_eq, Spec.beginCalls, Spec.active,
        Spec.predicate, Spec.endCalls, Spec.forceClose, Spec.endAction, dear.ItemTooltip,
        ImGui.IsItemHovered, ImGui.BeginTooltip, ImGui.EndTooltip, Base.dtor,
        ScopeWrapper.ctor, ScopeWrapper.toBool, bind_apply, pure_apply, invoke_apply,
        invokeVoid_apply, h]
  | _ =>
    simp [Decl.construct, guard_of_apply, endCalls_eq, Spec.beginCalls, Spec.active,
      Spec.predicate, Spec.endCalls, Spec.forceClose, Spec.endAction, ImVec2.arg,
      dear.Begin, dear.Child, dear.Child.byId, dear.ChildFrame, dear.Group, dear.Combo,
      dear.ListBox, dear.MenuBar, dear.MainMenuBar, dear.Menu, dear.Table, dear.Tooltip,
      dear.CollapsingHeader, dear.TreeNode, dear.SeparatedTreeNode, dear.Popup,
      dear.Popup.modal, dear.Popup.Modal, dear.PopupModal, dear.TabBar, dear.TabItem,
      dear.WithStyleVar, dear.WithStyleVar.byFloat,
      ImGui.Begin, ImGui.End, ImGui.BeginChild, ImGui.EndChild, ImGui.BeginChildFrame,
      ImGui.EndChildFrame, ImGui.BeginGroup, ImGui.EndGroup, ImGui.BeginCombo, ImGui.EndCombo,
      ImGui.BeginListBox, ImGui.EndListBox, ImGui.BeginMenuBar, ImGui.EndMenuBar,
      ImGui.BeginMainMenuBar, ImGui.EndMainMenuBar, ImGui.BeginMenu, ImGui.EndMenu,
      ImGui.BeginTable, ImGui.EndTable, ImGui.BeginTooltip, ImGui.EndTooltip,
      ImGui.CollapsingHeader, ImGui.TreeNode, ImGui.TreePop, ImGui.Separator, ImGui.BeginPopup,
      ImGui.BeginPopupModal, ImGui.EndPopup, ImGui.BeginTabBar, ImGui.EndTabBar,
      ImGui.BeginTabItem, ImGui.EndTabItem, ImGui.PushStyleVar, ImGui.PopStyleVar, Base.dtor,
      ScopeWrapper.ctor, ScopeWrapper.toBool, bind_apply, pure_apply, invoke_apply,
      invokeVoid_apply]

theorem exec_decl (d : Decl) (rest : Stmt) (lib : Lib) (tr : Trace) :
    (Stmt.decl d rest).exec lib tr
      = ((rest.exec lib (tr ++ Spec.beginCalls d (Spec.active d lib tr))).1,
         (rest.exec lib (tr ++ Spec.beginCalls d (Spec.active d lib tr))).2
           ++ Spec.endCalls d (Spec.active d lib tr)) := by
  obtain ⟨h1, _, h3⟩ := construct_meets_spec d lib tr
  simp only [Stmt.exec, bind_apply, pure_apply, destructor_apply]
  rw [h1]
  exact congrArg _ (congrArg _ h3)

theorem exec_ifOpen (d : Decl) (body : Stmt) (lib : Lib) (tr : Trace) :
    (Stmt.ifOpen d body).exec lib tr
      = if Spec.active d lib tr then
          ((body.exec lib (tr ++ Spec.beginCalls d true)).1,
           (body.exec lib (tr ++ Spec.beginCalls d true)).2 ++ Spec.endCalls d true)
        else
          (Flow.normal, tr ++ Spec.beginCalls d false ++ Spec.endCalls d false) := by
  obtain ⟨h1, h2, h3⟩ := construct_meets_spec d lib tr
  simp only [Stmt.exec, bind_apply]
  rw [h2, h1]
  cases h : Spec.active d lib tr
  · simp only [h] at h3
    simp [bind_apply, pure_apply, destructor_apply, h3]
  · simp only [h] at h3
    simp [bind_apply, pure_apply, destructor_apply, h3]

theorem exec_seq (s t : Stmt) (lib : Lib) (tr : Trace) :
    (Stmt.seq s t).exec lib tr
      = if (s.exec lib tr).1 = Flow.returned then (Flow.returned, (s.exec lib tr).2)
        else t.exec lib (s.exec lib tr).2 := by
  simp only [Stmt.exec, bind_apply]
  split <;> rfl

theorem exec_ret (lib : Lib) (tr : Trace) : Stmt.ret.exec lib tr = (Flow.returned, tr) := rfl

theorem exec_skip (lib : Lib) (tr : Trace) : Stmt.skip.exec lib tr = (Flow.normal, tr) := rfl

theorem exec_calls (cs : List Call) (lib : Lib) (tr : Trace) :
    (calls cs).exec lib tr = (Flow.normal, tr ++ cs) := by
  induction cs generalizing tr with
  | nil => simp [calls, Stmt.exec, pure_apply]
  | cons c cs ih => simp [calls, Stmt.exec, bind_apply, pure_apply, invoke_apply, ih]

theorem flow_cases (f : Flow) : f = Flow.normal ∨ f = Flow.returned := by
  cases f <;> simp

/-- The run of the header's guards agrees with the required run on any stack
of regions already open: on the normal path the stack is left as found, and
on `return` it has been unwound entirely. -/
theorem run_eq_exec (s : Stmt) (lib : Lib) (tr : Trace) (live : List (List Call)) :
    Spec.run s lib tr live
      = if (s.exec lib tr).1 = Flow.returned then
          (Flow.returned, (s.exec lib tr).2 ++ Spec.unwind live, [])
        else
          (Flow.normal, (s.exec lib tr).2, live) := by
  induction s generalizing tr live with
  | skip => simp [Spec.run, Stmt.exec, pure_apply]
  | call c => simp [Spec.run, Stmt.exec, bind_apply, pure_apply, invoke_apply]
  | ret => simp [Spec.run, Stmt.exec, pure_apply]
  | seq s t ihs iht =>
    simp only [Spec.run, Stmt.exec, bind_apply, ihs]
    rcases flow_cases (s.exec lib tr).1 with h | h
    · simp [h, iht]
    · simp [h, pure_apply]
  | decl d rest ih =>
    simp only [Spec.run, exec_decl, ih]
    rcases flow_cases
      (rest.exec lib (tr ++ Spec.beginCalls d (Spec.active d lib tr))).1 with h | h
    · simp [h, Spec.closeTop]
    · simp [h, Spec.unwind]
  | ifOpen d body ih =>
    simp only [Spec.run, exec_ifOpen, ih]
    cases ha : Spec.active d lib tr
    · simp [Spec.closeTop]
    · rcases flow_cases (body.exec lib (tr ++ Spec.beginCalls d true)).1 with h | h
      · simp [h, Spec.closeTop]
      · simp [h, Spec.unwind]

/-- A chain of nested guards left by `return` from its innermost block. -/
theorem nest_return (rest : Stmt) (ls : List Level) (lib : Lib) (tr : Trace) :
    (nestLevels ls (Stmt.seq Stmt.ret rest)).exec lib tr
      = (Flow.returned,
         (Spec.openAll ls lib tr).1 ++ (Spec.openAll ls lib tr).2.reverse.flatten) := by
  induction ls generalizing tr with
  | nil => simp [nestLevels, Spec.openAll, exec_seq, exec_ret]
  | cons l ls ih =>
    simp [nestLevels, Spec.openAll, exec_decl, exec_seq, ih]

/-- A chain of nested guards whose innermost block runs to its end. -/
theorem nest_normal (ls : List Level) (lib : Lib) (tr : Trace) :
    (nestLevels ls Stmt.skip).exec lib tr
      = (Flow.normal,
         (Spec.openAll ls lib tr).1
           ++ (ls.zip (Spec.openAll ls lib tr).2).reverse.flatMap Spec.leave) := by
  induction ls generalizing tr with
  | nil => simp [nestLevels, Spec.openAll, exec_skip]
  | cons l ls ih =>
    simp [nestLevels, Spec.openAll, exec_decl, exec_seq, ih, exec_calls, Spec.leave,
      List.flatMap_append]

/-! ## The claims -/

/-- C1: for each force-close variant (Begin, Child by either constructor,
ChildFrame, Group), whatever the library answers to the begin call, the guard
records that answer (Group records `true`), and a scope holding the guard
leaves the trace of its body followed by exactly one call of the variant's
end function.  In particular, when `ImGui::Begin` returns false the guard
converts to false and construct-then-destroy still makes exactly one
`ImGui::End` call. -/
theorem force_close_end_runs_exactly_once (lib : Lib) (tr : Trace) :
    (∀ (title : String) (p_open : Option Nat) (flags : Int) (α : Type)
        (body : ScopeWrapper .Begin true → ImGuiM α),
        dear.Begin title p_open flags lib tr
          = (⟨lib tr ⟨Fn.Begin, [.str title, .ptr p_open, .int flags]⟩⟩,
             tr ++ [⟨Fn.Begin, [.str title, .ptr p_open, .int flags]⟩]) ∧
        (inScope (dear.Begin title p_open flags) body lib tr).2
          = (body ⟨lib tr ⟨Fn.Begin, [.str title, .ptr p_open, .int flags]⟩⟩ lib
              (tr ++ [⟨Fn.Begin, [.str title, .ptr p_open, .int flags]⟩])).2
            ++ [⟨Fn.End, []⟩]) ∧
    (∀ (title : String) (size : ImVec2) (border : Bool) (flags : Int) (α : Type)
        (body : ScopeWrapper .Child true → ImGuiM α),
        dear.Child title size border flags lib tr
          = (⟨lib tr ⟨Fn.BeginChild, [.str title, size.arg, .bool border, .int flags]⟩⟩,
             tr ++ [⟨Fn.BeginChild, [.str title, size.arg, .bool border, .int flags]⟩]) ∧
        (inScope (dear.Child title size border flags) body lib tr).2
          = (body ⟨lib tr ⟨Fn.BeginChild, [.str title, size.arg, .bool border, .int flags]⟩⟩ lib
              (tr ++ [⟨Fn.BeginChild, [.str title, size.arg, .bool border, .int flags]⟩])).2
            ++ [⟨Fn.EndChild, []⟩]) ∧
    (∀ (id : Nat) (size : ImVec2) (border : Bool) (flags : Int) (α : Type)
        (body : ScopeWrapper .Child true → ImGuiM α),
        dear.Child.byId id size border flags lib tr
          = (⟨lib tr ⟨Fn.BeginChild, [.int id, size.arg, .bool border, .int flags]⟩⟩,
             tr ++ [⟨Fn.BeginChild, [.int id, size.arg, .bool border, .int flags]⟩]) ∧
        (inScope (dear.Child.byId id size border flags) body lib tr).2
          = (body ⟨lib tr ⟨Fn.BeginChild, [.int id, size.arg, .bool border, .int flags]⟩⟩ lib
              (tr ++ [⟨Fn.BeginChild, [.int id, size.arg, .bool border, .int flags]⟩])).2
            ++ [⟨Fn.EndChild, []⟩]) ∧
    (∀ (args : List Arg) (α : Type) (body : ScopeWrapper .ChildFrame true → ImGuiM α),
        dear.ChildFrame args lib tr
          = (⟨lib tr ⟨Fn.BeginChildFrame, args⟩⟩, tr ++ [⟨Fn.BeginChildFrame, args⟩]) ∧
        (inScope (dear.ChildFrame args) body lib tr).2
          = (body ⟨lib tr ⟨Fn.BeginChildFrame, args⟩⟩ lib (tr ++ [⟨Fn.BeginChildFrame, args⟩])).2
            ++ [⟨Fn.EndChildFrame, []⟩]) ∧
    (∀ (α : Type) (body : ScopeWrapper .Group true → ImGuiM α),
        dear.Group lib tr = (⟨true⟩, tr ++ [⟨Fn.BeginGroup, []⟩]) ∧
        (inScope dear.Group body lib tr).2
          = (body ⟨true⟩ lib (tr ++ [⟨Fn.BeginGroup, []⟩])).2 ++ [⟨Fn.EndGroup, []⟩]) ∧
    (∀ (title : String) (p_open : Option Nat) (flags : Int),
        lib tr ⟨Fn.Begin, [.str title, .ptr p_open, .int flags]⟩ = false →
        (dear.Begin title p_open flags lib tr).1.toBool = false ∧
        (inScope (dear.Begin title p_open flags) (fun _ => pure ()) lib tr).2
          = tr ++ [⟨Fn.Begin, [.str title, .ptr p_open, .int flags]⟩, ⟨Fn.End, []⟩] ∧
        List.count (Call.mk Fn.End [])
            (inScope (dear.Begin title p_open flags) (fun _ => pure ()) lib tr).2
          = List.count (Call.mk Fn.End []) tr + 1) := by
  refine ⟨?_, ?_, ?_, ?_, ?_, ?_⟩
  · intro title p_open flags α body
    simp [inScope_apply, endCalls_eq, dear.Begin, ImGui.Begin, ImGui.End, Base.dtor,
      ScopeWrapper.ctor, bind_apply, pure_apply, invoke_apply, invokeVoid_apply]
  · intro title size border flags α body
    simp [inScope_apply, endCalls_eq, dear.Child, ImGui.BeginChild, ImGui.EndChild, Base.dtor,
      ScopeWrapper.ctor, bind_apply, pure_apply, invoke_apply, invokeVoid_apply]
  · intro id size border flags α body
    simp [inScope_apply, endCalls_eq, dear.Child.byId, ImGui.BeginChild, ImGui.EndChild,
      Base.dtor, ScopeWrapper.ctor, bind_apply, pure_apply, invoke_apply, invokeVoid_apply]
  · intro args α body
    simp [inScope_apply, endCalls_eq, dear.ChildFrame, ImGui.BeginChildFrame,
      ImGui.EndChildFrame, Base.dtor, ScopeWrapper.ctor, bind_apply, pure_apply, invoke_apply,
      invokeVoid_apply]
  · intro α body
    simp [inScope_apply, endCalls_eq, dear.Group, ImGui.BeginGroup, ImGui.EndGroup, Base.dtor,
      ScopeWrapper.ctor, bind_apply, pure_apply, invokeVoid_apply]
  · intro title p_open flags hb
    simp [inScope_apply, endCalls_eq, dear.Begin, ImGui.Begin, ImGui.End, Base.dtor,
      ScopeWrapper.ctor, ScopeWrapper.toBool, bind_apply, pure_apply, invoke_apply,
      invokeVoid_apply, hb, List.count_append]

/-- C1, the scenario of the spec on a concrete input: the library refuses the
window, the guard converts to false, and `End` is called once. -/
theorem force_close_end_runs_exactly_once_witness :
    (dear.Begin "Visualizer" (some 0) 0 (fun _ _ => false) []).1.toBool = false ∧
    (inScope (dear.Begin "Visualizer" (some 0) 0) (fun _ => pure ()) (fun _ _ => false) []).2
      = [] ++ [⟨Fn.Begin, [.str "Visualizer", .ptr (some 0), .int 0]⟩, ⟨Fn.End, []⟩] ∧
    List.count (Call.mk Fn.End [])
        (inScope (dear.Begin "Visualizer" (some 0) 0) (fun _ => pure ()) (fun _ _ => false) []).2
      = List.count (Call.mk Fn.End []) [] + 1 :=
  (force_close_end_runs_exactly_once (fun _ _ => false) []).2.2.2.2.2 "Visualizer" (some 0) 0 rfl

/-- C2: for each variant without force-close whose predicate is the result of
its begin call (Combo, ListBox, Menu, Table, TreeNode, Popup by either
constructor, PopupModal, TabBar, TabItem), whatever the library answers, the
guard records that answer, and a scope holding the guard leaves the trace of
its body followed by one call of the end function when the answer was true
and by nothing when it was false.  In particular, when `ImGui::BeginCombo`
returns false the guard converts to false and `ImGui::EndCombo` is not
called. -/
theorem gated_end_runs_iff_begin_succeeded (lib : Lib) (tr : Trace) :
    (∀ (label preview : String) (flags : Int) (α : Type)
        (body : ScopeWrapper .Combo false → ImGuiM α),
        dear.Combo label preview flags lib tr
          = (⟨lib tr ⟨Fn.BeginCombo, [.str label, .str preview, .int flags]⟩⟩,
             tr ++ [⟨Fn.BeginCombo, [.str label, .str preview, .int flags]⟩]) ∧
        (inScope (dear.Combo label preview flags) body lib tr).2
          = (body ⟨lib tr ⟨Fn.BeginCombo, [.str label, .str preview, .int flags]⟩⟩ lib
              (tr ++ [⟨Fn.BeginCombo, [.str label, .str preview, .int flags]⟩])).2
            ++ (if lib tr ⟨Fn.BeginCombo, [.str label, .str preview, .int flags]⟩
                then [⟨Fn.EndCombo, []⟩] else [])) ∧
    (∀ (label : String) (size : ImVec2) (α : Type)
        (body : ScopeWrapper .ListBox false → ImGuiM α),
        dear.ListBox label size lib tr
          = (⟨lib tr ⟨Fn.BeginListBox, [.str label, size.arg]⟩⟩,
             tr ++ [⟨Fn.BeginListBox, [.str label, size.arg]⟩]) ∧
        (inScope (dear.ListBox label size) body lib tr).2
          = (body ⟨lib tr ⟨Fn.BeginListBox, [.str label, size.arg]⟩⟩ lib
              (tr ++ [⟨Fn.BeginListBox, [.str label, size.arg]⟩])).2
            ++ (if lib tr ⟨Fn.BeginListBox, [.str label, size.arg]⟩
                then [⟨Fn.EndListBox, []⟩] else [])) ∧
    (∀ (label : String) (enabled : Bool) (α : Type)
        (body : ScopeWrapper .Menu false → ImGuiM α),
        dear.Menu label enabled lib tr
          = (⟨lib tr ⟨Fn.BeginMenu, [.str label, .bool enabled]⟩⟩,
             tr ++ [⟨Fn.BeginMenu, [.str label, .bool enabled]⟩]) ∧
        (inScope (dear.Menu label enabled) body lib tr).2
          = (body ⟨lib tr ⟨Fn.BeginMenu, [.str label, .bool enabled]⟩⟩ lib
              (tr ++ [⟨Fn.BeginMenu, [.str label, .bool enabled]⟩])).2
            ++ (if lib tr ⟨Fn.BeginMenu, [.str label, .bool enabled]⟩
                then [⟨Fn.EndMenu, []⟩] else [])) ∧
    (∀ (str_id : String) (column flags : Int) (outer_size : ImVec2) (inner_width : Nat) (α : Type)
        (body : ScopeWrapper .Table false → ImGuiM α),
        dear.Table str_id column flags outer_size inner_width lib tr
          = (⟨lib tr ⟨Fn.BeginTable, [.str str_id, .int column, .int flags, outer_size.arg, .float inner_width]⟩⟩,
             tr ++ [⟨Fn.BeginTable, [.str str_id, .int column, .int flags, outer_size.arg, .float inner_width]⟩]) ∧
        (inScope (dear.Table str_id column flags outer_size inner_width) body lib tr).2
          = (body ⟨lib tr ⟨Fn.BeginTable, [.str str_id, .int column, .int flags, outer_size.arg, .float inner_width]⟩⟩ lib
              (tr ++ [⟨Fn.BeginTable, [.str str_id, .int column, .int flags, outer_size.arg, .float inner_width]⟩])).2
            ++ (if lib tr ⟨Fn.BeginTable, [.str str_id, .int column, .int flags, outer_size.arg, .float inner_width]⟩
                then [⟨Fn.EndTable, []⟩] else [])) ∧
    (∀ (args : List Arg) (α : Type)
        (body : ScopeWrapper .TreeNode false → ImGuiM α),
        dear.TreeNode args lib tr
          = (⟨lib tr ⟨Fn.TreeNode, args⟩⟩,
             tr ++ [⟨Fn.TreeNode, args⟩]) ∧
        (inScope (dear.TreeNode args) body lib tr).2
          = (body ⟨lib tr ⟨Fn.TreeNode, args⟩⟩ lib
              (tr ++ [⟨Fn.TreeNode, args⟩])).2
            ++ (if lib tr ⟨Fn.TreeNode, args⟩
                then [⟨Fn.TreePop, []⟩] else [])) ∧
    (∀ (str_id : String) (flags : Int) (α : Type)
        (body : ScopeWrapper .Popup false → ImGuiM α),
        dear.Popup str_id flags lib tr
          = (⟨lib tr ⟨Fn.BeginPopup, [.str str_id, .int flags]⟩⟩,
             tr ++ [⟨Fn.BeginPopup, [.str str_id, .int flags]⟩]) ∧
        (inScope (dear.Popup str_id flags) body lib tr).2
          = (body ⟨lib tr ⟨Fn.BeginPopup, [.str str_id, .int flags]⟩⟩ lib
              (tr ++ [⟨Fn.BeginPopup, [.str str_id, .int flags]⟩])).2
            ++ (if lib tr ⟨Fn.BeginPopup, [.str str_id, .int flags]⟩
                then [⟨Fn.EndPopup, []⟩] else [])) ∧
    (∀ (name : String) (p_open : Option Nat) (flags : Int) (α : Type)
        (body : ScopeWrapper .Popup false → ImGuiM α),
        dear.Popup.modal name p_open flags lib tr
          = (⟨lib tr ⟨Fn.BeginPopupModal, [.str name, .ptr p_open, .int flags]⟩⟩,
             tr ++ [⟨Fn.BeginPopupModal, [.str name, .ptr p_open, .int flags]⟩]) ∧
        (inScope (dear.Popup.modal name p_open flags) body lib tr).2
          = (body ⟨lib tr ⟨Fn.BeginPopupModal, [.str name, .ptr p_open, .int flags]⟩⟩ lib
              (tr ++ [⟨Fn.BeginPopupModal, [.str name, .ptr p_open, .int flags]⟩])).2
            ++ (if lib tr ⟨Fn.BeginPopupModal, [.str name, .ptr p_open, .int flags]⟩
                then [⟨Fn.EndPopup, []⟩] else [])) ∧
    (∀ (name : String) (p_open : Option Nat) (flags : Int) (α : Type)
        (body : ScopeWrapper .PopupModal false → ImGuiM α),
        dear.PopupModal name p_open flags lib tr
          = (⟨lib tr ⟨Fn.BeginPopupModal, [.str name, .ptr p_open, .int flags]⟩⟩,
             tr ++ [⟨Fn.BeginPopupModal, [.str name, .ptr p_open, .int flags]⟩]) ∧
        (inScope (dear.PopupModal name p_open flags) body lib tr).2
          = (body ⟨lib tr ⟨Fn.BeginPopupModal, [.str name, .ptr p_open, .int flags]⟩⟩ lib
              (tr ++ [⟨Fn.BeginPopupModal, [.str name, .ptr p_open, .int flags]⟩])).2
            ++ (if lib tr ⟨Fn.BeginPopupModal, [.str name, .ptr p_open, .int flags]⟩
                then [⟨Fn.EndPopup, []⟩] else [])) ∧
    (∀ (name : String) (flags : Int) (α : Type)
        (body : ScopeWrapper .TabBar false → ImGuiM α),
        dear.TabBar name flags lib tr
          = (⟨lib tr ⟨Fn.BeginTabBar, [.str name, .int flags]⟩⟩,
             tr ++ [⟨Fn.BeginTabBar, [.str name, .int flags]⟩]) ∧
        (inScope (dear.TabBar name flags) body lib tr).2
          = (body ⟨lib tr ⟨Fn.BeginTabBar, [.str name, .int flags]⟩⟩ lib
              (tr ++ [⟨Fn.BeginTabBar, [.str name, .int flags]⟩])).2
            ++ (if lib tr ⟨Fn.BeginTabBar, [.str name, .int flags]⟩
                then [⟨Fn.EndTabBar, []⟩] else [])) ∧
    (∀ (name : String) (p_open : Option Nat) (flags : Int) (α : Type)
        (body : ScopeWrapper .TabItem false → ImGuiM α),
        dear.TabItem name p_open flags lib tr
          = (⟨lib tr ⟨Fn.BeginTabItem, [.str name, .ptr p_open, .int flags]⟩⟩,
             tr ++ [⟨Fn.BeginTabItem, [.str name, .ptr p_open, .int flags]⟩]) ∧
        (inScope (dear.TabItem name p_open flags) body lib tr).2
          = (body ⟨lib tr ⟨Fn.BeginTabItem, [.str name, .ptr p_open, .int flags]⟩⟩ lib
              (tr ++ [⟨Fn.BeginTabItem, [.str name, .ptr p_open, .int flags]⟩])).2
            ++ (if lib tr ⟨Fn.BeginTabItem, [.str name, .ptr p_open, .int flags]⟩
                then [⟨Fn.EndTabItem, []⟩] else [])) ∧
    (∀ (label preview : String) (flags : Int),
        lib tr ⟨Fn.BeginCombo, [.str label, .str preview, .int flags]⟩ = false →
        (dear.Combo label preview flags lib tr).1.toBool = false ∧
        (inScope (dear.Combo label preview flags) (fun _ => pure ()) lib tr).2
          = tr ++ [⟨Fn.BeginCombo, [.str label, .str preview, .int flags]⟩] ∧
        List.count (Call.mk Fn.EndCombo [])
            (inScope (dear.Combo label preview flags) (fun _ => pure ()) lib tr).2
          = List.count (Call.mk Fn.EndCombo []) tr) := by
  refine ⟨?_, ?_, ?_, ?_, ?_, ?_, ?_, ?_, ?_, ?_, ?_⟩
  · intros
    simp [inScope_apply, endCalls_eq, dear.Combo, ImGui.BeginCombo, ImGui.EndCombo, Base.dtor,
      ScopeWrapper.ctor, bind_apply, pure_apply, invoke_apply, invokeVoid_apply]
  · intros
    simp [inScope_apply, endCalls_eq, dear.ListBox, ImGui.BeginListBox, ImGui.EndListBox, Base.dtor,
      ScopeWrapper.ctor, bind_apply, pure_apply, invoke_apply, invokeVoid_apply]
  · intros
    simp [inScope_apply, endCalls_eq, dear.Menu, ImGui.BeginMenu, ImGui.EndMenu, Base.dtor,
      ScopeWrapper.ctor, bind_apply, pure_apply, invoke_apply, invokeVoid_apply]
  · intros
    simp [inScope_apply, endCalls_eq, dear.Table, ImGui.BeginTable, ImGui.EndTable, Base.dtor,
      ScopeWrapper.ctor, bind_apply, pure_apply, invoke_apply, invokeVoid_apply]
  · intros
    simp [inScope_apply, endCalls_eq, dear.TreeNode, ImGui.TreeNode, ImGui.TreePop, Base.dtor,
      ScopeWrapper.ctor, bind_apply, pure_apply, invoke_apply, invokeVoid_apply]
  · intros
    simp [inScope_apply, endCalls_eq, dear.Popup, ImGui.BeginPopup, ImGui.EndPopup, Base.dtor,
      ScopeWrapper.ctor, bind_apply, pure_apply, invoke_apply, invokeVoid_apply]
  · intros
    simp [inScope_apply, endCalls_eq, dear.Popup.modal, ImGui.BeginPopupModal, ImGui.EndPopup, Base.dtor,
      ScopeWrapper.ctor, bind_apply, pure_apply, invoke_apply, invokeVoid_apply]
  · intros
    simp [inScope_apply, endCalls_eq, dear.PopupModal, ImGui.BeginPopupModal, ImGui.EndPopup, Base.dtor,
      ScopeWrapper.ctor, bind_apply, pure_apply, invoke_apply, invokeVoid_apply]
  · intros
    simp [inScope_apply, endCalls_eq, dear.TabBar, ImGui.BeginTabBar, ImGui.EndTabBar, Base.dtor,
      ScopeWrapper.ctor, bind_apply, pure_apply, invoke_apply, invokeVoid_apply]
  · intros
    simp [inScope_apply, endCalls_eq, dear.TabItem, ImGui.BeginTabItem, ImGui.EndTabItem, Base.dtor,
      ScopeWrapper.ctor, bind_apply, pure_apply, invoke_apply, invokeVoid_apply]
  · intro label preview flags hb
    simp [inScope_apply, endCalls_eq, dear.Combo, ImGui.BeginCombo, ImGui.EndCombo, Base.dtor,
      ScopeWrapper.ctor, ScopeWrapper.toBool, bind_apply, pure_apply, invoke_apply,
      invokeVoid_apply, hb, List.count_append]

/-- C2, the scenario of the spec on a concrete input: the library refuses the
combo, the guard converts to false, and `EndCombo` is not called. -/
theorem gated_end_runs_iff_begin_succeeded_witness :
    (dear.Combo "c" "p" 0 (fun _ _ => false) []).1.toBool = false ∧
    (inScope (dear.Combo "c" "p" 0) (fun _ => pure ()) (fun _ _ => false) []).2
      = [] ++ [⟨Fn.BeginCombo, [.str "c", .str "p", .int 0]⟩] ∧
    List.count (Call.mk Fn.EndCombo [])
        (inScope (dear.Combo "c" "p" 0) (fun _ => pure ()) (fun _ _ => false) []).2
      = List.count (Call.mk Fn.EndCombo []) [] :=
  (gated_end_runs_iff_begin_succeeded (fun _ _ => false) []).2.2.2.2.2.2.2.2.2.2
    "c" "p" 0 rfl

/-- C3: for a guard of any variant, force-closing or not, `guard && f` returns
the active flag; the state of the world afterwards is the one left by a
single run of `f` when the flag is true and the unchanged one when it is
false.  Counted on a callable that makes one library call `c`: the number of
`c` calls grows by exactly one when the flag is true and by none when it is
false. -/
theorem and_runs_callable_iff_active {B : Base} {F : Bool} {α : Type} (g : ScopeWrapper B F)
    (passthru : ImGuiM α) (lib : Lib) (tr : Trace) :
    (g.and passthru lib tr).1 = g.toBool ∧
    (g.and passthru lib tr).2 = (if g.toBool then (passthru lib tr).2 else tr) ∧
    (∀ c : Call, List.count c (g.and (ImGui.invoke c) lib tr).2
        = List.count c tr + (if g.toBool then 1 else 0)) := by
  obtain ⟨ok⟩ := g
  cases ok <;>
    simp [ScopeWrapper.and, ScopeWrapper.toBool, bind_apply, pure_apply, invoke_apply,
      List.count_append]

/-- C5: for the ItemTooltip guard, with `h` the answer of the hover query
`IsItemHovered(flags)`: the active flag is `h`; the constructor calls
`BeginTooltip` once after the query when `h` is true and not at all when it
is false; scope exit calls `EndTooltip` once when `h` is true and not at all
when it is false.  In particular, when the query answers false,
construct-then-destroy makes the query and no other call. -/
theorem item_tooltip_begins_and_ends_iff_hovered (lib : Lib) (tr : Trace) (flags : Int) :
    ItemTooltip flags lib tr
      = (⟨lib tr ⟨Fn.IsItemHovered, [.int flags]⟩⟩,
         tr ++ [⟨Fn.IsItemHovered, [.int flags]⟩]
           ++ (if lib tr ⟨Fn.IsItemHovered, [.int flags]⟩
               then [⟨Fn.BeginTooltip, []⟩] else [])) ∧
    (∀ (α : Type) (body : ScopeWrapper .ItemTooltip false → ImGuiM α),
      (inScope (ItemTooltip flags) body lib tr).2
        = (body ⟨lib tr ⟨Fn.IsItemHovered, [.int flags]⟩⟩ lib
            (tr ++ [⟨Fn.IsItemHovered, [.int flags]⟩]
              ++ (if lib tr ⟨Fn.IsItemHovered, [.int flags]⟩
                  then [⟨Fn.BeginTooltip, []⟩] else []))).2
          ++ (if lib tr ⟨Fn.IsItemHovered, [.int flags]⟩
              then [⟨Fn.EndTooltip, []⟩] else [])) ∧
    (lib tr ⟨Fn.IsItemHovered, [.int flags]⟩ = false →
      (ItemTooltip flags lib tr).1.toBool = false ∧
      (inScope (ItemTooltip flags) (fun _ => pure ()) lib tr).2
        = tr ++ [⟨Fn.IsItemHovered, [.int flags]⟩]) ∧
    (lib tr ⟨Fn.IsItemHovered, [.int flags]⟩ = true →
      (ItemTooltip flags lib tr).1.toBool = true ∧
      (inScope (ItemTooltip flags) (fun _ => pure ()) lib tr).2
        = tr ++ [⟨Fn.IsItemHovered, [.int flags]⟩, ⟨Fn.BeginTooltip, []⟩,
                 ⟨Fn.EndTooltip, []⟩]) := by
  cases h : lib tr ⟨Fn.IsItemHovered, [.int flags]⟩ <;>
    simp [inScope_apply, endCalls_eq, ItemTooltip, ImGui.IsItemHovered, ImGui.BeginTooltip,
      ImGui.EndTooltip, Base.dtor, ScopeWrapper.ctor, ScopeWrapper.toBool, bind_apply,
      pure_apply, invoke_apply, invokeVoid_apply, h]

/-- C5 on a concrete input: the item is not hovered, so neither `BeginTooltip`
nor `EndTooltip` is called. -/
theorem item_tooltip_begins_and_ends_iff_hovered_witness :
    (ItemTooltip 0 (fun _ _ => false) []).1.toBool = false ∧
    (inScope (ItemTooltip 0) (fun _ => pure ()) (fun _ _ => false) []).2
      = [] ++ [⟨Fn.IsItemHovered, [.int 0]⟩] :=
  (item_tooltip_begins_and_ends_iff_hovered (fun _ _ => false) [] 0).2.2.1 rfl

/-- C6 as stated fails: when the library answers false to `BeginMenuBar`
(resp. `BeginMainMenuBar`), the MenuBar (resp. MainMenuBar) guard is inactive
and its end function is not called at scope exit. -/
theorem menu_bar_guard_can_be_inactive :
    (MenuBar (fun _ _ => false) []).1.toBool = false ∧
    (inScope MenuBar (fun _ => pure ()) (fun _ _ => false) []).2 = [⟨Fn.BeginMenuBar, []⟩] ∧
    (MainMenuBar (fun _ _ => false) []).1.toBool = false ∧
    (inScope MainMenuBar (fun _ => pure ()) (fun _ _ => false) []).2
      = [⟨Fn.BeginMainMenuBar, []⟩] := by
  decide

/-- C6 amended: Group and Tooltip have no failure predicate, so under every
behaviour of the library the guard is active and its end function runs once
at scope exit; MenuBar and MainMenuBar record the answer of `BeginMenuBar`
and `BeginMainMenuBar`, and their end function runs once at scope exit when
that answer is true and not at all when it is false. -/
theorem unconditional_variants_are_group_and_tooltip (lib : Lib) (tr : Trace) :
    (Group lib tr = (⟨true⟩, tr ++ [⟨Fn.BeginGroup, []⟩]) ∧
      (Group lib tr).1.toBool = true ∧
      ∀ (α : Type) (body : ScopeWrapper .Group true → ImGuiM α),
        (inScope Group body lib tr).2
          = (body ⟨true⟩ lib (tr ++ [⟨Fn.BeginGroup, []⟩])).2 ++ [⟨Fn.EndGroup, []⟩]) ∧
    (Tooltip lib tr = (⟨true⟩, tr ++ [⟨Fn.BeginTooltip, []⟩]) ∧
      (Tooltip lib tr).1.toBool = true ∧
      ∀ (α : Type) (body : ScopeWrapper .Tooltip false → ImGuiM α),
        (inScope Tooltip body lib tr).2
          = (body ⟨true⟩ lib (tr ++ [⟨Fn.BeginTooltip, []⟩])).2 ++ [⟨Fn.EndTooltip, []⟩]) ∧
    (MenuBar lib tr = (⟨lib tr ⟨Fn.BeginMenuBar, []⟩⟩, tr ++ [⟨Fn.BeginMenuBar, []⟩]) ∧
      (MenuBar lib tr).1.toBool = lib tr ⟨Fn.BeginMenuBar, []⟩ ∧
      ∀ (α : Type) (body : ScopeWrapper .MenuBar false → ImGuiM α),
        (inScope MenuBar body lib tr).2
          = (body ⟨lib tr ⟨Fn.BeginMenuBar, []⟩⟩ lib (tr ++ [⟨Fn.BeginMenuBar, []⟩])).2
            ++ (if lib tr ⟨Fn.BeginMenuBar, []⟩ then [⟨Fn.EndMenuBar, []⟩] else [])) ∧
    (MainMenuBar lib tr
        = (⟨lib tr ⟨Fn.BeginMainMenuBar, []⟩⟩, tr ++ [⟨Fn.BeginMainMenuBar, []⟩]) ∧
      (MainMenuBar lib tr).1.toBool = lib tr ⟨Fn.BeginMainMenuBar, []⟩ ∧
      ∀ (α : Type) (body : ScopeWrapper .MainMenuBar false → ImGuiM α),
        (inScope MainMenuBar body lib tr).2
          = (body ⟨lib tr ⟨Fn.BeginMainMenuBar, []⟩⟩ lib
              (tr ++ [⟨Fn.BeginMainMenuBar, []⟩])).2
            ++ (if lib tr ⟨Fn.BeginMainMenuBar, []⟩
                then [⟨Fn.EndMainMenuBar, []⟩] else [])) := by
  refine ⟨⟨?_, ?_, ?_⟩, ⟨?_, ?_, ?_⟩, ⟨?_, ?_, ?_⟩, ⟨?_, ?_, ?_⟩⟩ <;> intros <;>
    simp [inScope_apply, endCalls_eq, Group, Tooltip, MenuBar, MainMenuBar, ImGui.BeginGroup,
      ImGui.EndGroup, ImGui.BeginTooltip, ImGui.EndTooltip, ImGui.BeginMenuBar,
      ImGui.EndMenuBar, ImGui.BeginMainMenuBar, ImGui.EndMainMenuBar, Base.dtor,
      ScopeWrapper.ctor, ScopeWrapper.toBool, bind_apply, pure_apply, invoke_apply,
      invokeVoid_apply]

/-- C7: the three spellings of a modal popup, `PopupModal(name, p_open, flags)`,
`Popup(Popup::modal{}, name, p_open, flags)` and
`Popup::Modal(name, p_open, flags)`, behave alike under every behaviour of the
library: each makes exactly the one call `BeginPopupModal(name, p_open, flags)`
and records its answer, and a scope holding the guard yields the same result
and the same trace for each, namely the trace of the body followed by one
`EndPopup` when the answer was true and by nothing when it was false. -/
theorem modal_popup_spellings_agree (lib : Lib) (tr : Trace) (name : String)
    (p_open : Option Nat) (flags : Int) :
    PopupModal name p_open flags lib tr
      = (⟨lib tr ⟨Fn.BeginPopupModal, [.str name, .ptr p_open, .int flags]⟩⟩,
         tr ++ [⟨Fn.BeginPopupModal, [.str name, .ptr p_open, .int flags]⟩]) ∧
    Popup.modal name p_open flags lib tr
      = (⟨lib tr ⟨Fn.BeginPopupModal, [.str name, .ptr p_open, .int flags]⟩⟩,
         tr ++ [⟨Fn.BeginPopupModal, [.str name, .ptr p_open, .int flags]⟩]) ∧
    Popup.Modal name p_open flags lib tr
      = (⟨lib tr ⟨Fn.BeginPopupModal, [.str name, .ptr p_open, .int flags]⟩⟩,
         tr ++ [⟨Fn.BeginPopupModal, [.str name, .ptr p_open, .int flags]⟩]) ∧
    (∀ (α : Type) (body : Bool → ImGuiM α),
      inScope (PopupModal name p_open flags) (fun g => body g.toBool) lib tr
        = ((body (lib tr ⟨Fn.BeginPopupModal, [.str name, .ptr p_open, .int flags]⟩) lib
              (tr ++ [⟨Fn.BeginPopupModal, [.str name, .ptr p_open, .int flags]⟩])).1,
           (body (lib tr ⟨Fn.BeginPopupModal, [.str name, .ptr p_open, .int flags]⟩) lib
              (tr ++ [⟨Fn.BeginPopupModal, [.str name, .ptr p_open, .int flags]⟩])).2
             ++ (if lib tr ⟨Fn.BeginPopupModal, [.str name, .ptr p_open, .int flags]⟩
                 then [⟨Fn.EndPopup, []⟩] else [])) ∧
      inScope (Popup.modal name p_open flags) (fun g => body g.toBool) lib tr
        = inScope (PopupModal name p_open flags) (fun g => body g.toBool) lib tr ∧
      inScope (Popup.Modal name p_open flags) (fun g => body g.toBool) lib tr
        = inScope (PopupModal name p_open flags) (fun g => body g.toBool) lib tr) := by
  refine ⟨?_, ?_, ?_, ?_⟩ <;> intros <;>
    simp [inScope_apply, endCalls_eq, PopupModal, Popup.modal, Popup.Modal,
      ImGui.BeginPopupModal, ImGui.EndPopup, Base.dtor, ScopeWrapper.ctor, ScopeWrapper.toBool,
      bind_apply, pure_apply, invoke_apply, invokeVoid_apply]

/-- C8: the CollapsingHeader guard records the answer of
`CollapsingHeader(label, flags)`; destroying it leaves every trace unchanged,
whether the answer was true or false; construct-then-destroy makes exactly
the single `CollapsingHeader` call. -/
theorem collapsing_header_destructor_makes_no_call (lib : Lib) (tr : Trace) (label : String)
    (flags : Int) :
    CollapsingHeader label flags lib tr
      = (⟨lib tr ⟨Fn.CollapsingHeader, [.str label, .int flags]⟩⟩,
         tr ++ [⟨Fn.CollapsingHeader, [.str label, .int flags]⟩]) ∧
    (∀ (ok : Bool) (after : Trace),
      (⟨ok⟩ : ScopeWrapper .CollapsingHeader false).destructor lib after = ((), after)) ∧
    (inScope (CollapsingHeader label flags) (fun _ => pure ()) lib tr).2
      = tr ++ [⟨Fn.CollapsingHeader, [.str label, .int flags]⟩] := by
  refine ⟨?_, ?_, ?_⟩ <;> intros <;>
    simp [inScope_apply, destructor_apply, endCalls_eq, CollapsingHeader,
      ImGui.CollapsingHeader, Base.dtor, ScopeWrapper.ctor, bind_apply, pure_apply,
      invoke_apply]

/-- C10: the SeparatedTreeNode guard records the answer of the `TreeNode`
call it makes; a scope holding it leaves the trace of its body followed by
`TreePop` and then `Separator`, once each, when the answer was true, and by
nothing when it was false. -/
theorem separated_tree_node_pops_then_separates (lib : Lib) (tr : Trace) (args : List Arg) :
    SeparatedTreeNode args lib tr
      = (⟨lib tr ⟨Fn.TreeNode, args⟩⟩, tr ++ [⟨Fn.TreeNode, args⟩]) ∧
    (∀ (α : Type) (body : ScopeWrapper .SeparatedTreeNode false → ImGuiM α),
      (inScope (SeparatedTreeNode args) body lib tr).2
        = (body ⟨lib tr ⟨Fn.TreeNode, args⟩⟩ lib (tr ++ [⟨Fn.TreeNode, args⟩])).2
          ++ (if lib tr ⟨Fn.TreeNode, args⟩
              then [⟨Fn.TreePop, []⟩, ⟨Fn.Separator, []⟩] else [])) := by
  refine ⟨?_, ?_⟩ <;> intros <;>
    simp [inScope_apply, endCalls_eq, SeparatedTreeNode, ImGui.TreeNode, ImGui.TreePop,
      ImGui.Separator, Base.dtor, ScopeWrapper.ctor, bind_apply, pure_apply, invoke_apply,
      invokeVoid_apply]

/-- C9: the boolean conversion of a guard returns the predicate given to the
constructor, and after any sequence of boolean conversions and uses of
`operator&&`, with any callables and under any behaviour of the library,
every one of those operations has returned that same predicate and the
boolean conversion still returns it. -/
theorem active_flag_never_changes {B : Base} {F : Bool} (ok : Bool) (ops : List GuardOp)
    (lib : Lib) (tr : Trace) :
    (ScopeWrapper.ctor ok : ScopeWrapper B F).toBool = ok ∧
    (applyOps (ScopeWrapper.ctor ok : ScopeWrapper B F) ops lib tr).1.1
      = List.replicate ops.length ok ∧
    (applyOps (ScopeWrapper.ctor ok : ScopeWrapper B F) ops lib tr).1.2.toBool = ok := by
  refine ⟨rfl, ?_, ?_⟩
  · induction ops generalizing tr with
    | nil => rfl
    | cons op ops ih =>
      cases op with
      | toBool =>
        simp only [applyOps, GuardOp.apply, bind_apply, pure_apply, List.length_cons,
          List.replicate_succ, ih]
        rfl
      | and passthru =>
        cases ok <;>
          simp [applyOps, GuardOp.apply, ScopeWrapper.and, ScopeWrapper.ctor, bind_apply,
            pure_apply, List.replicate_succ] <;> exact ih _
  · induction ops generalizing tr with
    | nil => rfl
    | cons op ops ih =>
      cases op with
      | toBool =>
        simp only [applyOps, GuardOp.apply, bind_apply, pure_apply]
        exact ih _
      | and passthru =>
        simp only [applyOps, GuardOp.apply, bind_apply, pure_apply]
        exact ih _

/-- C4: under any behaviour of the library, guards are closed in exact
reverse order of construction, early `return` included.
(1) For every function body `s`, the run of the header's guards is the
required run on an explicit stack of open regions: each end call is made by
popping the innermost open region, a `return` pops all of them innermost
first and nothing after it runs, and the stack is empty when the body is
left, so every guard constructed has been closed and no other.
(2) For any chain of nested guards whose innermost block runs to its end,
the run ends normally and its trace is the begin calls in construction order
followed, level by level from the innermost outwards, by the trailing calls
of the level and the end calls its guard owes.
(3) For the same chain with a `return` in the innermost block, before any
remaining statements `rest`, the run ends by return and its trace is the
begin calls in construction order followed by the end calls owed, in reverse
order of construction: no trailing call of any level runs and nothing of
`rest` runs.
(4) A worked run of the body
`Begin w("w"); { if (TabBar t("t")) { Combo c("a","b"); SeparatedTreeNode n; return; } TextUnformatted("x"); } TextUnformatted("y");`
with the library refusing the combo only: the tree node, the tab bar and the
window are closed in that order, the combo is not closed, and neither text
call after the blocks runs.
The begin and end calls on the right-hand sides of (1) to (3) are those
listed per guard definition in `Spec`, not computed by the constructors or
the destructor. -/
theorem nested_guards_close_in_reverse_order (s : Stmt) (levels : List Level) (rest : Stmt)
    (lib : Lib) (tr : Trace) :
    Spec.run s lib tr [] = ((s.exec lib tr).1, (s.exec lib tr).2, []) ∧
    (nestLevels levels Stmt.skip).exec lib tr
      = (Flow.normal,
         (Spec.openAll levels lib tr).1
           ++ (levels.zip (Spec.openAll levels lib tr).2).reverse.flatMap Spec.leave) ∧
    (nestLevels levels (Stmt.seq Stmt.ret rest)).exec lib tr
      = (Flow.returned,
         (Spec.openAll levels lib tr).1 ++ (Spec.openAll levels lib tr).2.reverse.flatten) ∧
    (Stmt.decl (.Begin "w" none 0)
        (Stmt.seq
          (Stmt.seq
            (Stmt.ifOpen (.TabBar "t" 0)
              (Stmt.decl (.Combo "a" "b" 0)
                (Stmt.decl (.SeparatedTreeNode []) Stmt.ret)))
            (Stmt.call ⟨Fn.TextUnformatted, [.str "x"]⟩))
          (Stmt.call ⟨Fn.TextUnformatted, [.str "y"]⟩))).exec
        (fun _ c => c.fn != Fn.BeginCombo) []
      = (Flow.returned,
         [⟨Fn.Begin, [.str "w", .ptr none, .int 0]⟩,
          ⟨Fn.BeginTabBar, [.str "t", .int 0]⟩,
          ⟨Fn.BeginCombo, [.str "a", .str "b", .int 0]⟩,
          ⟨Fn.TreeNode, []⟩,
          ⟨Fn.TreePop, []⟩, ⟨Fn.Separator, []⟩,
          ⟨Fn.EndTabBar, []⟩,
          ⟨Fn.End, []⟩]) := by
  refine ⟨?_, nest_normal levels lib tr, nest_return rest levels lib tr, by decide⟩
  rw [run_eq_exec]
  rcases flow_cases (s.exec lib tr).1 with h | h
  · simp [h]
  · simp [h, Spec.unwind]

end dear
